import Mathlib

/-!
Verification of the Folium server's request pipeline against its
natural-language specification.

The definitions below are shallow embeddings of the C++ sources in
`folium-server/src`: `f_task.h` (task record and static priorities),
`fifo_channel.h` (channel send/read), `http_gateway.cc` (edge routes and
the wait-for-response loop), `dispatcher.cc` (admission control, worker
loop, shutdown) and `auth.cc` / `data_access_layer.cc` (credential and
password logic over an abstract database state).  External effects
(MySQL connections, SHA-256, JWT minting, wall-clock time) are passed in
as explicit state or function parameters; everything else follows the
source line by line.
-/

/-- Minimal JSON value model mirroring the `nlohmann::json` values the
server actually builds: objects are association lists in insertion
order. -/
inductive Json where
  | null : Json
  | bool : Bool → Json
  | num : Int → Json
  | str : String → Json
  | arr : List Json → Json
  | obj : List (String × Json) → Json
deriving Repr

/-- Key membership, mirroring `json::contains` on objects (false on
non-objects). -/
def Json.hasKey : Json → String → Bool
  | .obj fs, k => fs.any (fun p => p.1 == k)
  | _, _ => false

/-- Field lookup on an object, `none` when absent or not an object. -/
def Json.get : Json → String → Option Json
  | .obj fs, k => (fs.find? (fun p => p.1 == k)).map (fun p => p.2)
  | _, _ => none

/-- Mirror of `json::value(key, default)` for string fields. -/
def Json.valueStr (j : Json) (k : String) (d : String) : String :=
  match j.get k with
  | some (.str s) => s
  | _ => d

/-- Mirror of `json::value(key, default)` for array fields. -/
def Json.valueArr (j : Json) (k : String) (d : List Json) : List Json :=
  match j.get k with
  | some (.arr xs) => xs
  | _ => d

/-- A thrown C++ exception: the server's catch sites distinguish
`std::runtime_error` from other `std::exception` subclasses (such as
`std::invalid_argument` and nlohmann type errors). -/
inductive CppExc where
  | runtimeError : String → CppExc
  | otherExc : String → CppExc
deriving Repr, DecidableEq

/-- Mirror of `e.what()`. -/
def CppExc.what : CppExc → String
  | .runtimeError m => m
  | .otherExc m => m

/-- Replace the first binding of `k`, or append one. -/
def setPairs : List (String × Json) → String → Json → List (String × Json)
  | [], k, v => [(k, v)]
  | (k', w) :: rest, k, v =>
      if k' == k then (k', v) :: rest else (k', w) :: setPairs rest k v

/-- Mirror of the assignment `j[key] = v`: nlohmann updates an object
(or turns null into one) and throws a type error on any other target. -/
def Json.setKeyE : Json → String → Json → Except CppExc Json
  | .obj fs, k, v => .ok (.obj (setPairs fs k v))
  | .null, k, v => .ok (.obj [(k, v)])
  | _, _, _ => .error (.otherExc "type_error.305: cannot use operator[] with a string argument")

/-- Task kinds, in the declaration order of `enum F_TaskType`
(`f_task.h`). -/
inductive F_TaskType where
  | PING | SYSKILL | ERROR
  | REGISTER | SIGN_IN | LOG_OUT | AUTH_REFRESH | AUTH_CHANGE_PASSWORD
  | GET_CLASSES | GET_ME_CLASSES | POST_ME_CLASSES | PUT_CLASS | DELETE_CLASS
  | GET_CLASS_DETAILS | GET_CLASS_OWNER | GET_CLASS_NAME
  | GET_CLASS_DESCRIPTION | GET_CLASS_BIGNOTE | GET_CLASS_TITLE
  | POST_UPLOAD_NOTE | PUT_BIGNOTE_EDIT | GET_BIGNOTE_HISTORY
  | GET_BIGNOTE_EXPORT
  | CREATE_NOTE | EDIT_NOTE
deriving DecidableEq, Repr

/-- The task record `struct F_Task` (`f_task.h`): a worker-thread stamp,
reserved progress fields, an opaque JSON payload and the kind tag.  The
struct has no correlation-id field. -/
structure F_Task where
  threadId : Nat
  progress : Nat
  isDone : Bool
  data : Json
  type : F_TaskType
deriving Repr

/-- The constructor `F_Task(F_TaskType type)`: payload left as the
default (null) JSON. -/
def mkTask (ty : F_TaskType) : F_Task :=
  ⟨0, 0, false, Json.null, ty⟩

/-- A task of the given kind carrying the given payload, as the routes
and handlers build them. -/
def mkTaskData (ty : F_TaskType) (d : Json) : F_Task :=
  ⟨0, 0, false, d, ty⟩

/-- Static priority table `F_Task::getPriority` (`f_task.h`), switch
case by switch case; lower value means more urgent. -/
def F_Task.getPriority (t : F_Task) : Int :=
  match t.type with
  | .SYSKILL => 1
  | .PING => 2
  | .SIGN_IN => 3
  | .REGISTER | .AUTH_REFRESH => 4
  | .AUTH_CHANGE_PASSWORD | .LOG_OUT => 5
  | .GET_CLASSES | .GET_ME_CLASSES | .POST_ME_CLASSES | .GET_CLASS_DETAILS
  | .GET_CLASS_OWNER | .GET_CLASS_NAME | .GET_CLASS_DESCRIPTION
  | .GET_CLASS_BIGNOTE | .GET_CLASS_TITLE => 6
  | .PUT_CLASS | .DELETE_CLASS => 7
  | .POST_UPLOAD_NOTE | .CREATE_NOTE => 7
  | .PUT_BIGNOTE_EDIT | .EDIT_NOTE => 8
  | .GET_BIGNOTE_HISTORY | .GET_BIGNOTE_EXPORT => 8
  | .ERROR => 10

/-! ### Wire format (`fifo_channel.h`) -/

/-- Little-endian byte list of width `w` for a natural number, used to
lay out the specification's fixed-width header fields. -/
def bytesLE (w n : Nat) : List Nat :=
  (List.range w).map (fun i => n / 256 ^ i % 256)

/-- Modelled from the spec (refinement reference, for comparison with
the code's serialization): "8-byte kind tag, 8-byte correlation id,
8-byte worker id, 4-byte JSON length, JSON bytes"; `payload` is the
UTF-8 byte sequence of the dumped JSON. -/
def specWireFrame (kind corr worker : Nat) (payload : List Nat) : List Nat :=
  bytesLE 8 kind ++ bytesLE 8 corr ++ bytesLE 8 worker ++
    bytesLE 4 payload.length ++ payload

/-- Number of bytes `ipc::FifoChannel::send` hands to `::write`: always
`sizeof(F_Task)` (`fifo_channel.h:57`), a compile-time constant `szF`
that does not depend on the task's payload. -/
def sendByteCount (szF : Nat) (_t : F_Task) : Nat := szF

/-- Result of `FifoChannel::send` as a function of the byte count `n`
returned by `::write` (`fifo_channel.h:55-68`): `-1` and short writes
throw, otherwise it reports whether the full struct was written. -/
def sendResult (n : Int) (szF : Nat) : Except String Bool :=
  if n = -1 then .error "FIFO Write Error."
  else if n ≠ szF then .error "Incomplete write to FIFO."
  else .ok true

/-- Result of `FifoChannel::read` as a function of the byte count `n`
returned by `::read` (`fifo_channel.h:70-83`): zero bytes means the
writer is gone (throws), `-1` is an I/O error (throws), otherwise the
call reports whether a complete `F_Task` struct was read. -/
def readResult (n : Int) (szF : Nat) : Except String Bool :=
  if n = 0 then .error "No writers attached to pipe."
  else if n = -1 then .error "FIFO Read Error."
  else .ok (n = szF)

/-! ### C++ exceptions and the database model -/

/-- Row of the `users` table (`struct User`, `data_access_layer.h`). -/
structure DalUser where
  id : Int
  username : String
  password_hash : String
deriving Repr, DecidableEq

/-- Row of the `tokens` table as used by `auth.cc` (token string, owner
id, expiry). -/
structure DalToken where
  token : String
  user_id : Int
  exp : Int
deriving Repr, DecidableEq

/-- Abstract database state behind the MySQL connection: the DAL's
queries are modelled as pure functions of this state; connection
failures are not modelled. -/
structure DB where
  users : List DalUser
  tokens : List DalToken
deriving Repr, DecidableEq

/-- Mirror of `DAL::getUserByUsername` (`data_access_layer.cc:480`):
empty usernames short-circuit to "not found"; otherwise the first
matching row (`LIMIT 1`) is returned. -/
def DAL.getUserByUsername (db : DB) (username : String) : Option DalUser :=
  if username = "" then none
  else db.users.find? (fun u => u.username == username)

/-- Fresh `AUTO_INCREMENT` id for an inserted user row. -/
def DAL.nextUserId (db : DB) : Int :=
  (db.users.map (fun u => u.id)).foldr max 0 + 1

/-- Mirror of `DAL::createUser` (`data_access_layer.cc:527`): empty
arguments throw `std::invalid_argument`; otherwise the row is inserted. -/
def DAL.createUser (db : DB) (username hashedPassword : String) :
    Except CppExc DB :=
  if username = "" ∨ hashedPassword = "" then
    .error (.otherExc "createUser: Username and hashedPassword cannot be empty.")
  else
    .ok { db with
          users := db.users ++ [⟨DAL.nextUserId db, username, hashedPassword⟩] }

/-- Mirror of `DAL::updateUserPassword` (`data_access_layer.cc:556`):
empty arguments throw `std::invalid_argument`; otherwise every row with
the username gets the new hash (SQL `UPDATE … WHERE username = …`). -/
def DAL.updateUserPassword (db : DB) (username newHashedPassword : String) :
    Except CppExc DB :=
  if username = "" ∨ newHashedPassword = "" then
    .error (.otherExc "updateUserPassword: Username and newHashedPassword cannot be empty.")
  else
    .ok { db with
          users := db.users.map (fun u =>
            if u.username == username then
              { u with password_hash := newHashedPassword }
            else u) }

/-- Modelled from the spec: `DAL::insertToken` is called by `auth.cc`
but its definition is not in the sources; per the Data Access Port
contract a successful call stores the token row. -/
def DAL.insertToken (db : DB) (token : String) (user_id exp : Int) : DB :=
  { db with tokens := db.tokens ++ [⟨token, user_id, exp⟩] }

/-- Modelled from the spec: `DAL::deleteTokensForUser` is called by
`auth.cc` ("revoke all tokens for the user") but missing from the
sources; a successful call removes every token row of that user. -/
def DAL.deleteTokensForUser (db : DB) (user_id : Int) : DB :=
  { db with tokens := db.tokens.filter (fun t => t.user_id ≠ user_id) }

/-- Modelled from the spec: `DAL::deleteToken` (used by token refresh)
removes a single token row. -/
def DAL.deleteToken (db : DB) (token : String) : DB :=
  { db with tokens := db.tokens.filter (fun t => t.token ≠ token) }

/-- Mirror of `DAL::getClassIds` (`data_access_layer.cc:215`): user id
zero throws `std::invalid_argument`; other ids produce the
`user_classes` rows, supplied by the abstract query `classIdsOf`. -/
def DAL.getClassIds (classIdsOf : Int → List Int) (user_id : Int) :
    Except CppExc (List Int) :=
  if user_id = 0 then
    .error (.otherExc "getClassIds: user_id must be non-zero.")
  else .ok (classIdsOf user_id)

/-! ### Authentication (`auth.cc`)

The SHA-256 digest (`hashPasswordImpl`, OpenSSL) and JWT minting and
decoding (jwt-cpp) are outside the sources; they enter as the function
parameters `hashF`, `mint` and `decodeSub`. -/

/-- External effects used by `auth.cc`: `mint uid` stands for
`jwt::create()...sign(...)` for subject `uid`, `expTime` for the 24-hour
expiry timestamp, and `decodeSub` for `jwt::decode` + `get_subject` +
`std::stoi` (`none` models a throw inside that sequence). -/
structure AuthExt where
  mint : Int → String
  expTime : Int
  decodeSub : String → Option Int

/-- Constant `auth::MIN_USERNAME_LENGTH` (`auth.h:23`). -/
def MIN_USERNAME_LENGTH : Nat := 3

/-- Constant `auth::MIN_PASSWORD_LENGTH` (`auth.h:24`). -/
def MIN_PASSWORD_LENGTH : Nat := 5

/-- Mirror of `verifyPasswordImpl` (`auth.cc:54`). -/
def verifyPasswordImpl (hashF : String → String)
    (hashedPassword plainPassword : String) : Bool :=
  hashF plainPassword == hashedPassword

/-- Mirror of `auth::check_credentials` (`auth.cc:62`): returns the
success flag together with the message written to the out-parameter. -/
def check_credentials (hashF : String → String) (db : DB)
    (username password : String) : Bool × String :=
  match DAL.getUserByUsername db username with
  | none => (false, "User not found")
  | some u =>
      if verifyPasswordImpl hashF u.password_hash password then
        (true, "Credentials valid")
      else (false, "Bad password")

/-- Mirror of `auth::login` (`auth.cc:80`): unknown users yield the
empty token; otherwise a JWT is minted, stored, and returned
(`DAL::insertToken` succeeding in the model). -/
def auth.login (ext : AuthExt) (db : DB) (username : String) :
    String × DB :=
  match DAL.getUserByUsername db username with
  | none => ("", db)
  | some u =>
      let token := ext.mint u.id
      (token, DAL.insertToken db token u.id ext.expTime)

/-- Mirror of `auth::registerUser` (`auth.cc:130`): existing users make
it throw `std::runtime_error`; otherwise the hashed row is inserted and
the fresh id returned (`DAL::createUser`'s `std::invalid_argument` for
empty strings propagates unchanged). -/
def auth.registerUser (hashF : String → String) (db : DB)
    (username password : String) : Except CppExc (Int × DB) :=
  if (DAL.getUserByUsername db username).isSome then
    .error (.runtimeError "User already exists")
  else
    match DAL.createUser db username (hashF password) with
    | .error e => .error e
    | .ok db' =>
        match DAL.getUserByUsername db' username with
        | some u => .ok (u.id, db')
        | none =>
            .error (.runtimeError
              "User creation succeeded but could not retrieve user ID")

/-- Mirror of `auth::refreshToken` (`auth.cc:166`): all exceptions are
caught inside and turn into the empty string, so the function is total;
on success the old token is revoked and the new one stored. -/
def auth.refreshToken (ext : AuthExt) (db : DB) (token : String) :
    String × DB :=
  match ext.decodeSub token with
  | none => ("", db)
  | some uid =>
      let newToken := ext.mint uid
      (newToken, DAL.insertToken (DAL.deleteToken db token) newToken uid ext.expTime)

/-- Mirror of `auth::changePassword` (`auth.cc:200`): verify the old
password, store the hash of the new one, then revoke all tokens of the
user; a failing `DAL.updateUserPassword` (empty hash) propagates as an
exception, exactly as the uncaught `std::invalid_argument` would. -/
def auth.changePassword (hashF : String → String) (db : DB)
    (username oldPassword newPassword : String) :
    Except CppExc (Bool × DB) :=
  match DAL.getUserByUsername db username with
  | none => .ok (false, db)
  | some user =>
      if ¬ verifyPasswordImpl hashF user.password_hash oldPassword then
        .ok (false, db)
      else
        match DAL.updateUserPassword db username (hashF newPassword) with
        | .error e => .error e
        | .ok db1 => .ok (true, DAL.deleteTokensForUser db1 user.id)

/-! ### HTTP gateway (`http_gateway.cc`) -/

/-- Default reply deadline of `Gateway::processTaskAndWaitForResponse`,
from the declaration `int timeoutMs = 5000` (`http_gateway.h:40`). -/
def defaultTimeoutMs : Nat := 5000

/-- Error task built when `out_.send` fails
(`http_gateway.cc:257-264`). -/
def ipcFailureTask : F_Task :=
  ⟨0, 0, false,
   Json.obj [("status", .str "error"), ("message", .str "IPC communication failure")],
   .ERROR⟩

/-- Error task built when the deadline expires before any reply is
readable (`http_gateway.cc:272-279`). -/
def timeoutTask : F_Task :=
  ⟨0, 0, false,
   Json.obj [("status", .str "error"), ("message", .str "Response timeout")],
   .ERROR⟩

/-- Error task built when `in_.read` returns false
(`http_gateway.cc:287-294`). -/
def readFailTask : F_Task :=
  ⟨0, 0, false,
   Json.obj [("status", .str "error"), ("message", .str "Failed to read response")],
   .ERROR⟩

/-- Mirror of `Gateway::processTaskAndWaitForResponse`
(`http_gateway.cc:253-301`) with time abstracted: `avail` lists the
replies that become readable on `C→E` before the deadline elapses, in
arrival order (empty means the timeout fires first).  The loop performs
no correlation check of any kind: whenever data is available it returns
the first task read from the channel, whatever request it answers. -/
def processTaskAndWaitForResponse (sendOk readOk : Bool)
    (avail : List F_Task) (_task : F_Task) : F_Task :=
  if ¬ sendOk then ipcFailureTask
  else
    match avail with
    | [] => timeoutTask
    | r :: _ => if readOk then r else readFailTask

/-- Task built by the `POST /api/auth/login` route
(`http_gateway.cc:158-165`): note the kind is `REGISTER`, not
`SIGN_IN`. -/
def loginRouteTask (username password : String) : F_Task :=
  mkTaskData .REGISTER
    (Json.obj [("username", .str username), ("password", .str password)])

/-- Response mapping of the login route (`http_gateway.cc:168-176`):
HTTP 400 when the reply kind is `ERROR`, else 200; the body is the
reply's payload dumped verbatim. -/
def loginRouteResponse (sendOk readOk : Bool) (avail : List F_Task)
    (username password : String) : Nat × Json :=
  let response :=
    processTaskAndWaitForResponse sendOk readOk avail
      (loginRouteTask username password)
  (if response.type = .ERROR then 400 else 200, response.data)

/-- Response mapping of `GET /ping-core` (`http_gateway.cc:72-94`): the
status is 400 on an `ERROR` reply and 200 otherwise, and the body is
always `{message:"pong!"}`. -/
def pingCoreRouteResponse (sendOk readOk : Bool) (avail : List F_Task) :
    Nat × Json :=
  let outputTask :=
    processTaskAndWaitForResponse sendOk readOk avail (mkTask .PING)
  (if outputTask.type = .ERROR then 400 else 200,
   Json.obj [("message", .str "pong!")])

/-! ### JSON field access as the handlers perform it -/

/-- Mirror of `req[key]` on an object: the stored value, or null when
the key is absent (nlohmann inserts null on non-const access). -/
def Json.atKey (j : Json) (k : String) : Json :=
  (j.get k).getD Json.null

/-- Conversion `std::string s = j;`: throws a nlohmann type error unless
the value is a string. -/
def Json.asStr : Json → Except CppExc String
  | .str s => .ok s
  | _ => .error (.otherExc "type_error.302: type must be string")

/-- Conversion `int n = j;`: throws a nlohmann type error unless the
value is a number. -/
def Json.asInt : Json → Except CppExc Int
  | .num n => .ok n
  | _ => .error (.otherExc "type_error.302: type must be number")

/-- Shorthand payload `{statusCode, error}` used by every error branch
of the handlers. -/
def errObj (code : Int) (msg : String) : Json :=
  Json.obj [("statusCode", .num code), ("error", .str msg)]

/-- Reply carrying the given payload in place of the request's. -/
def F_Task.withData (t : F_Task) (d : Json) : F_Task :=
  { t with data := d }

/-! ### Core task handlers (`dispatcher.cc`) -/

/-- Mirror of `handleSystemTask` (`dispatcher.cc:123-154`); on the
`ERROR` path the two `operator[]` assignments can throw when the
incoming payload is neither null nor an object. -/
def handleSystemTask (task : F_Task) : Except CppExc F_Task :=
  match task.type with
  | .PING =>
      .ok (task.withData (Json.obj
        [("statusCode", .num 200), ("message", .str "pong from dispatch")]))
  | .SYSKILL =>
      .ok (task.withData (Json.obj
        [("statusCode", .num 200), ("message", .str "SYSKILL acknowledged")]))
  | _ =>
      match (if ¬ task.data.hasKey "error" then
               task.data.setKeyE "error" (.str "Unknown error occurred.")
             else .ok task.data) with
      | .error e => .error e
      | .ok d1 =>
          match (if ¬ d1.hasKey "statusCode" then
                   d1.setKeyE "statusCode" (.num 400)
                 else .ok d1) with
          | .error e => .error e
          | .ok d2 => .ok (task.withData d2)

/-- Mirror of `handleAuthTask` (`dispatcher.cc:159-299`), threading the
database state; `.error` results are exceptions that escape the handler
(only `registerUser` is wrapped in a `catch (std::runtime_error)`
there). -/
def handleAuthTask (hashF : String → String) (ext : AuthExt) (db : DB)
    (task : F_Task) : Except CppExc (F_Task × DB) :=
  let req := task.data
  match task.type with
  | .REGISTER =>
      if ¬ (req.hasKey "username" ∧ req.hasKey "password") then
        .ok (task.withData (errObj 400 "Missing username or password"), db)
      else
        match (req.atKey "username").asStr, (req.atKey "password").asStr with
        | .ok username, .ok password =>
            if username.utf8ByteSize < MIN_USERNAME_LENGTH ∨
                password.utf8ByteSize < MIN_PASSWORD_LENGTH then
              .ok (task.withData (errObj 400 "Username/password too short"), db)
            else
              match auth.registerUser hashF db username password with
              | .ok (newUserId, db') =>
                  .ok (task.withData (Json.obj
                        [("statusCode", .num 201),
                         ("message", .str "User registered successfully"),
                         ("userId", .num newUserId)]), db')
              | .error (.runtimeError m) =>
                  .ok (task.withData (errObj 400 m), db)
              | .error e => .error e
        | .error e, _ => .error e
        | _, .error e => .error e
  | .SIGN_IN =>
      if ¬ (req.hasKey "username" ∧ req.hasKey "password") then
        .ok (task.withData (errObj 400 "Missing username or password"), db)
      else
        match (req.atKey "username").asStr, (req.atKey "password").asStr with
        | .ok username, .ok password =>
            let (okCred, errMsg) := check_credentials hashF db username password
            if ¬ okCred then
              .ok (task.withData
                    (errObj 401 (if errMsg = "" then "Invalid credentials" else errMsg)),
                   db)
            else
              let (token, db') := auth.login ext db username
              if token = "" then
                .ok (task.withData (errObj 401 "Could not generate token"), db')
              else
                .ok (task.withData (Json.obj
                      [("statusCode", .num 200),
                       ("token", .str token),
                       ("sessionId", .str ("sess-" ++ username))]), db')
        | .error e, _ => .error e
        | _, .error e => .error e
  | .LOG_OUT =>
      if ¬ req.hasKey "token" then
        .ok (task.withData (errObj 401 "Missing or invalid token"), db)
      else
        .ok (task.withData (Json.obj
              [("statusCode", .num 200), ("message", .str "Logout successful")]), db)
  | .AUTH_REFRESH =>
      if ¬ req.hasKey "refreshToken" then
        .ok (task.withData (errObj 401 "Missing refresh token"), db)
      else
        match (req.atKey "refreshToken").asStr with
        | .ok oldToken =>
            let (newToken, db') := auth.refreshToken ext db oldToken
            .ok (task.withData (Json.obj
                  [("statusCode", .num 200), ("token", .str newToken)]), db')
        | .error e => .error e
  | .AUTH_CHANGE_PASSWORD =>
      if ¬ (req.hasKey "username" ∧ req.hasKey "currentPassword" ∧
            req.hasKey "newPassword") then
        .ok (task.withData (errObj 400 "Missing required fields"), db)
      else
        match (req.atKey "username").asStr, (req.atKey "currentPassword").asStr,
              (req.atKey "newPassword").asStr with
        | .ok user, .ok oldPw, .ok newPw =>
            match auth.changePassword hashF db user oldPw newPw with
            | .ok (true, db') =>
                .ok (task.withData (Json.obj
                      [("statusCode", .num 200),
                       ("message", .str "Password changed successfully")]), db')
            | .ok (false, db') =>
                .ok (task.withData (errObj 400 "Could not change password"), db')
            | .error e => .error e
        | .error e, _, _ => .error e
        | _, .error e, _ => .error e
        | _, _, .error e => .error e
  | _ => .ok (task.withData (errObj 400 "Unknown Auth task"), db)

/-! ### File store behind the class and note handlers -/

/-- The files the class handlers read and write, keyed by path and
holding parsed JSON; `std::filesystem::exists` and `DAL::readJsonFile` /
`DAL::writeJsonFile` act on this store (I/O failures on present files
are not modelled). -/
structure Fs where
  files : List (String × Json)

/-- Stored content of a path, when present. -/
def Fs.read (fs : Fs) (p : String) : Option Json :=
  (fs.files.find? (fun f => f.1 == p)).map (fun f => f.2)

/-- Mirror of `std::filesystem::exists`. -/
def Fs.pathExists (fs : Fs) (p : String) : Bool :=
  fs.files.any (fun f => f.1 == p)

/-- Overwrite or create a file. -/
def Fs.writeAt (fs : Fs) (p : String) (j : Json) : Fs :=
  if fs.files.any (fun f => f.1 == p) then
    ⟨fs.files.map (fun f => if f.1 == p then (f.1, j) else f)⟩
  else ⟨fs.files ++ [(p, j)]⟩

/-- Mirror of `std::filesystem::remove`. -/
def Fs.remove (fs : Fs) (p : String) : Fs :=
  ⟨fs.files.filter (fun f => f.1 ≠ p)⟩

/-- Mirror of `DAL::readJsonFile` for a path already checked with
`exists` (the handlers always guard reads this way). -/
def DAL.readJsonFile (fs : Fs) (p : String) : Json :=
  (fs.read p).getD Json.null

/-- Mirror of `DAL::writeJsonFile` (`data_access_layer.cc:442`): the
JSON must carry its own `file_path` field, else the call throws
`std::runtime_error`; a non-string `file_path` throws a type error. -/
def DAL.writeJsonFile (fs : Fs) (data : Json) : Except CppExc Fs :=
  match data.get "file_path" with
  | none =>
      .error (.runtimeError "writeJsonFile: Missing 'file_path' field in JSON data.")
  | some (.str p) => .ok (fs.writeAt p data)
  | some _ => .error (.otherExc "type_error.302: type must be string")

/-- Mirror of `json::value(key, default)` for string fields: absent
keys give the default, present non-string values throw. -/
def Json.valueStrE (j : Json) (k d : String) : Except CppExc String :=
  match j.get k with
  | none => .ok d
  | some (.str s) => .ok s
  | some _ => .error (.otherExc "type_error.302: type must be string")

/-! ### Class handlers (`dispatcher.cc:304-639`) -/

/-- Body of `handleClassesTask` inside its `try` block; `.error` results
are the exceptions its `catch (std::exception)` turns into a 500
payload.  `classIdsOf` supplies the `user_classes` query results. -/
def handleClassesBody (classIdsOf : Int → List Int) (fs : Fs)
    (task : F_Task) : Except CppExc (F_Task × Fs) :=
  let req := task.data
  match task.type with
  | .GET_CLASSES =>
      match DAL.getClassIds classIdsOf 0 with
      | .error e => .error e
      | .ok allCids =>
          let classArr := allCids.filterMap (fun cid =>
            fs.read ("class_" ++ toString cid ++ ".json"))
          .ok (task.withData (Json.obj
                [("statusCode", .num 200), ("classes", .arr classArr)]), fs)
  | .GET_ME_CLASSES =>
      if ¬ req.hasKey "userId" then
        .ok (task.withData (errObj 401 "Missing userId"), fs)
      else
        match (req.atKey "userId").asInt with
        | .error e => .error e
        | .ok userId =>
            match DAL.getClassIds classIdsOf userId with
            | .error e => .error e
            | .ok cids =>
                let out := cids.filterMap (fun cid =>
                  fs.read ("class_" ++ toString cid ++ ".json"))
                .ok (task.withData (Json.obj
                      [("statusCode", .num 200), ("classes", .arr out)]), fs)
  | .POST_ME_CLASSES =>
      if ¬ (req.hasKey "userId" ∧ req.hasKey "name" ∧ req.hasKey "classId") then
        .ok (task.withData (errObj 400 "Missing userId, name, or classId"), fs)
      else
        match (req.atKey "userId").asInt, (req.atKey "name").asStr,
              (req.atKey "classId").asStr with
        | .ok userId, .ok name, .ok classIdStr =>
            match req.valueStrE "description" "" with
            | .error e => .error e
            | .ok desc =>
                let cls := Json.obj
                  [("classId", .str classIdStr), ("name", .str name),
                   ("owner", .str (toString userId)),
                   ("ownerId", .str (toString userId)),
                   ("description", .str desc)]
                match DAL.writeJsonFile fs cls with
                | .error e => .error e
                | .ok fs' =>
                    .ok (task.withData (Json.obj
                          [("statusCode", .num 201),
                           ("message", .str "Class created successfully"),
                           ("classId", .str classIdStr)]), fs')
        | .error e, _, _ => .error e
        | _, .error e, _ => .error e
        | _, _, .error e => .error e
  | .PUT_CLASS =>
      if ¬ (req.hasKey "userId" ∧ req.hasKey "classId") then
        .ok (task.withData (errObj 400 "Missing userId or classId"), fs)
      else
        match (req.atKey "classId").asStr with
        | .error e => .error e
        | .ok classIdStr =>
            let path := "class_" ++ classIdStr ++ ".json"
            if ¬ fs.pathExists path then
              .ok (task.withData (errObj 404 "Class not found"), fs)
            else
              let clsData := DAL.readJsonFile fs path
              match (if req.hasKey "name" then
                       clsData.setKeyE "name" (req.atKey "name")
                     else .ok clsData) with
              | .error e => .error e
              | .ok c1 =>
                  match (if req.hasKey "description" then
                           c1.setKeyE "description" (req.atKey "description")
                         else .ok c1) with
                  | .error e => .error e
                  | .ok c2 =>
                      match DAL.writeJsonFile fs c2 with
                      | .error e => .error e
                      | .ok fs' =>
                          .ok (task.withData (Json.obj
                                [("statusCode", .num 200),
                                 ("message", .str "Class updated successfully")]), fs')
  | .DELETE_CLASS =>
      if ¬ (req.hasKey "userId" ∧ req.hasKey "classId") then
        .ok (task.withData (errObj 400 "Missing userId or classId"), fs)
      else
        match (req.atKey "classId").asStr with
        | .error e => .error e
        | .ok classIdStr =>
            let path := "class_" ++ classIdStr ++ ".json"
            if ¬ fs.pathExists path then
              .ok (task.withData (errObj 404 "Class not found"), fs)
            else
              let clsData := DAL.readJsonFile fs path
              match clsData.valueStrE "ownerId" "", (req.atKey "userId").asStr with
              | .ok ownerId, .ok userId =>
                  if ownerId = userId then
                    .ok (task.withData (Json.obj
                          [("statusCode", .num 200),
                           ("message", .str "Class fully deleted by owner")]),
                         fs.remove path)
                  else
                    .ok (task.withData (Json.obj
                          [("statusCode", .num 200),
                           ("message", .str "User unenrolled from class")]), fs)
              | .error e, _ => .error e
              | _, .error e => .error e
  | .GET_CLASS_DETAILS =>
      if ¬ (req.hasKey "userId" ∧ req.hasKey "classId") then
        .ok (task.withData (errObj 401 "Unauthorized or missing classId"), fs)
      else
        match (req.atKey "classId").asStr with
        | .error e => .error e
        | .ok classIdStr =>
            let path := "class_" ++ classIdStr ++ ".json"
            if ¬ fs.pathExists path then
              .ok (task.withData (errObj 404 "Class not found"), fs)
            else
              let cls := DAL.readJsonFile fs path
              match cls.valueStrE "classId" "", cls.valueStrE "ownerId" "",
                    cls.valueStrE "name" "", cls.valueStrE "description" "" with
              | .ok idv, .ok ownerv, .ok namev, .ok descv =>
                  match cls.valueStrE "bigNote" "All combined notes...",
                        cls.valueStrE "title" "Untitled" with
                  | .ok bigv, .ok titlev =>
                      .ok (task.withData (Json.obj
                            [("statusCode", .num 200), ("id", .str idv),
                             ("owner", .str ownerv), ("name", .str namev),
                             ("description", .str descv), ("bigNote", .str bigv),
                             ("title", .str titlev)]), fs)
                  | .error e, _ => .error e
                  | _, .error e => .error e
              | .error e, _, _, _ => .error e
              | _, .error e, _, _ => .error e
              | _, _, .error e, _ => .error e
              | _, _, _, .error e => .error e
  | .GET_CLASS_OWNER =>
      if ¬ (req.hasKey "userId" ∧ req.hasKey "classId") then
        .ok (task.withData (errObj 401 "Missing or invalid"), fs)
      else
        match (req.atKey "classId").asStr with
        | .error e => .error e
        | .ok classIdStr =>
            let path := "class_" ++ classIdStr ++ ".json"
            if ¬ fs.pathExists path then
              .ok (task.withData (errObj 404 "Class not found"), fs)
            else
              let cls := DAL.readJsonFile fs path
              match cls.valueStrE "ownerId" "",
                    cls.valueStrE "owner" "someOwnerUsername",
                    cls.valueStrE "ownerContact" "unknown" with
              | .ok oid, .ok oname, .ok ocontact =>
                  .ok (task.withData (Json.obj
                        [("statusCode", .num 200), ("ownerId", .str oid),
                         ("ownerName", .str oname),
                         ("ownerContact", .str ocontact)]), fs)
              | .error e, _, _ => .error e
              | _, .error e, _ => .error e
              | _, _, .error e => .error e
  | .GET_CLASS_NAME =>
      if ¬ (req.hasKey "userId" ∧ req.hasKey "classId") then
        .ok (task.withData (errObj 401 "Missing userId or classId"), fs)
      else
        match (req.atKey "classId").asStr with
        | .error e => .error e
        | .ok classIdStr =>
            let path := "class_" ++ classIdStr ++ ".json"
            if ¬ fs.pathExists path then
              .ok (task.withData (errObj 404 "Class not found"), fs)
            else
              match (DAL.readJsonFile fs path).valueStrE "name" "" with
              | .error e => .error e
              | .ok namev =>
                  .ok (task.withData (Json.obj
                        [("statusCode", .num 200), ("name", .str namev)]), fs)
  | .GET_CLASS_DESCRIPTION =>
      if ¬ (req.hasKey "userId" ∧ req.hasKey "classId") then
        .ok (task.withData (errObj 401 "Missing info"), fs)
      else
        match (req.atKey "classId").asStr with
        | .error e => .error e
        | .ok classIdStr =>
            let path := "class_" ++ classIdStr ++ ".json"
            if ¬ fs.pathExists path then
              .ok (task.withData (errObj 404 "Class not found"), fs)
            else
              match (DAL.readJsonFile fs path).valueStrE "description" "" with
              | .error e => .error e
              | .ok descv =>
                  .ok (task.withData (Json.obj
                        [("statusCode", .num 200),
                         ("description", .str descv)]), fs)
  | .GET_CLASS_BIGNOTE =>
      if ¬ (req.hasKey "userId" ∧ req.hasKey "classId") then
        .ok (task.withData (errObj 401 "Missing userId or classId"), fs)
      else
        match (req.atKey "classId").asStr with
        | .error e => .error e
        | .ok classIdStr =>
            let path := "class_" ++ classIdStr ++ ".json"
            if ¬ fs.pathExists path then
              .ok (task.withData (errObj 404 "Class not found"), fs)
            else
              let cls := DAL.readJsonFile fs path
              match cls.valueStrE "bigNote" "", cls.valueStrE "title" "",
                    cls.valueStrE "bigNoteUpdated" "" with
              | .ok contentv, .ok titlev, .ok updatedv =>
                  .ok (task.withData (Json.obj
                        [("statusCode", .num 200),
                         ("bigNote", Json.obj
                           [("content", .str contentv), ("title", .str titlev),
                            ("lastUpdated", .str updatedv),
                            ("contributors", .arr []), ("sections", .arr [])])]),
                       fs)
              | .error e, _, _ => .error e
              | _, .error e, _ => .error e
              | _, _, .error e => .error e
  | .GET_CLASS_TITLE =>
      if ¬ (req.hasKey "userId" ∧ req.hasKey "classId") then
        .ok (task.withData (errObj 401 "Missing userId or classId"), fs)
      else
        match (req.atKey "classId").asStr with
        | .error e => .error e
        | .ok classIdStr =>
            let path := "class_" ++ classIdStr ++ ".json"
            if ¬ fs.pathExists path then
              .ok (task.withData (errObj 404 "Class not found"), fs)
            else
              match (DAL.readJsonFile fs path).valueStrE "title" "" with
              | .error e => .error e
              | .ok titlev =>
                  .ok (task.withData (Json.obj
                        [("statusCode", .num 200), ("title", .str titlev)]), fs)
  | _ => .ok (task.withData (errObj 400 "Unrecognized Classes task"), fs)

/-- Mirror of `handleClassesTask`: the body's exceptions are caught and
become a 500 payload (no branch writes before a later throw, so the
store is unchanged on the catch path). -/
def handleClassesTask (classIdsOf : Int → List Int) (fs : Fs)
    (task : F_Task) : F_Task × Fs :=
  match handleClassesBody classIdsOf fs task with
  | .ok r => r
  | .error e => (task.withData (errObj 500 e.what), fs)

/-! ### Note handlers (`dispatcher.cc:644-791`) -/

/-- Body of `handleNotesTask` inside its `try` block; `nowStr` is the
`std::put_time` rendering of the current wall-clock time. -/
def handleNotesBody (nowStr : String) (fs : Fs) (task : F_Task) :
    Except CppExc (F_Task × Fs) :=
  let req := task.data
  match task.type with
  | .POST_UPLOAD_NOTE | .CREATE_NOTE =>
      if ¬ (req.hasKey "userId" ∧ req.hasKey "classId" ∧ req.hasKey "noteFile") then
        .ok (task.withData (errObj 400 "Missing required fields"), fs)
      else
        .ok (task.withData (Json.obj
              [("statusCode", .num 201),
               ("message", .str "Note uploaded and merged"),
               ("updated", .bool true)]), fs)
  | .PUT_BIGNOTE_EDIT | .EDIT_NOTE =>
      if ¬ (req.hasKey "userId" ∧ req.hasKey "classId" ∧ req.hasKey "content") then
        .ok (task.withData (errObj 400 "Missing userId, classId, or content"), fs)
      else
        match (req.atKey "classId").asStr with
        | .error e => .error e
        | .ok classIdStr =>
            let path := "class_" ++ classIdStr ++ ".json"
            if ¬ fs.pathExists path then
              .ok (task.withData (errObj 404 "Class not found"), fs)
            else
              let cls := DAL.readJsonFile fs path
              match (if req.hasKey "title" then
                       cls.setKeyE "title" (req.atKey "title")
                     else .ok cls) with
              | .error e => .error e
              | .ok c1 =>
                  let content := req.atKey "content"
                  match (if content.hasKey "text" then
                           c1.setKeyE "bigNote" (content.atKey "text")
                         else .ok c1) with
                  | .error e => .error e
                  | .ok c2 =>
                      match c2.setKeyE "bigNoteUpdated" (.str nowStr) with
                      | .error e => .error e
                      | .ok c3 =>
                          match DAL.writeJsonFile fs c3 with
                          | .error e => .error e
                          | .ok fs' =>
                              .ok (task.withData (Json.obj
                                    [("statusCode", .num 200),
                                     ("message", .str "Big note updated"),
                                     ("lastUpdated", .str nowStr)]), fs')
  | .GET_BIGNOTE_HISTORY =>
      if ¬ (req.hasKey "userId" ∧ req.hasKey "classId") then
        .ok (task.withData (errObj 401 "Missing userId or classId"), fs)
      else
        match (req.atKey "classId").asStr with
        | .error e => .error e
        | .ok classIdStr =>
            let histPath := "note_history_" ++ classIdStr ++ ".json"
            if ¬ fs.pathExists histPath then
              .ok (task.withData (errObj 404 "No edit history found"), fs)
            else
              let histData := DAL.readJsonFile fs histPath
              let history := (histData.get "history").getD (.arr [])
              .ok (task.withData (Json.obj
                    [("statusCode", .num 200), ("history", history)]), fs)
  | .GET_BIGNOTE_EXPORT =>
      if ¬ (req.hasKey "userId" ∧ req.hasKey "classId") then
        .ok (task.withData (errObj 401 "Missing userId or classId"), fs)
      else
        match req.valueStrE "format" "PDF" with
        | .error e => .error e
        | .ok format =>
            if format ≠ "PDF" ∧ format ≠ "Markdown" then
              .ok (task.withData (errObj 400 "Invalid export format"), fs)
            else
              .ok (task.withData (Json.obj
                    [("statusCode", .num 200),
                     ("message", .str ("Big note exported as " ++ format))]), fs)
  | _ => .ok (task.withData (errObj 400 "Unrecognized Notes task"), fs)

/-- Mirror of `handleNotesTask`: exceptions from the body become a 500
payload. -/
def handleNotesTask (nowStr : String) (fs : Fs) (task : F_Task) :
    F_Task × Fs :=
  match handleNotesBody nowStr fs task with
  | .ok r => r
  | .error e => (task.withData (errObj 500 e.what), fs)

/-! ### `processTask` (`dispatcher.cc:53-118`) -/

/-- Everything the Core's handlers consult beyond the mutable state:
password hashing, JWT minting, the `user_classes` query and the clock. -/
structure CoreEnv where
  hashF : String → String
  ext : AuthExt
  classIdsOf : Int → List Int
  nowStr : String

/-- The Core's mutable state: the user/token database and the class
files on disk. -/
structure CoreSt where
  db : DB
  fs : Fs

/-- System arm of `processTask`: its `catch (std::exception)` converts
an exception into a 500 payload on the same task. -/
def systemStep (st : CoreSt) (task : F_Task) : F_Task × CoreSt :=
  match handleSystemTask task with
  | .ok reply => (reply, st)
  | .error e => (task.withData (errObj 500 e.what), st)

/-- Auth arm of `processTask`: exceptions escaping `handleAuthTask` are
caught by `processTask`'s `catch (std::exception)` and become a 500
payload; the database keeps its pre-call state on that path. -/
def authStep (env : CoreEnv) (st : CoreSt) (task : F_Task) : F_Task × CoreSt :=
  match handleAuthTask env.hashF env.ext st.db task with
  | .ok (reply, db') => (reply, { st with db := db' })
  | .error e => (task.withData (errObj 500 e.what), st)

/-- Classes arm of `processTask` (the handler catches internally). -/
def classesStep (env : CoreEnv) (st : CoreSt) (task : F_Task) : F_Task × CoreSt :=
  let r := handleClassesTask env.classIdsOf st.fs task
  (r.1, { st with fs := r.2 })

/-- Notes arm of `processTask` (the handler catches internally). -/
def notesStep (env : CoreEnv) (st : CoreSt) (task : F_Task) : F_Task × CoreSt :=
  let r := handleNotesTask env.nowStr st.fs task
  (r.1, { st with fs := r.2 })

/-- Mirror of `processTask`: dispatch on the kind group; exceptions
escaping `handleAuthTask` are caught by the enclosing
`catch (std::exception)`, which overwrites the payload with a 500 error
and still returns the task (the reply always keeps the request's
kind). -/
def processTask (env : CoreEnv) (st : CoreSt) (task : F_Task) :
    F_Task × CoreSt :=
  match task.type with
  | .PING | .SYSKILL | .ERROR => systemStep st task
  | .REGISTER | .SIGN_IN | .LOG_OUT | .AUTH_REFRESH | .AUTH_CHANGE_PASSWORD =>
      authStep env st task
  | .GET_CLASSES | .GET_ME_CLASSES | .POST_ME_CLASSES | .PUT_CLASS
  | .DELETE_CLASS | .GET_CLASS_DETAILS | .GET_CLASS_OWNER | .GET_CLASS_NAME
  | .GET_CLASS_DESCRIPTION | .GET_CLASS_BIGNOTE | .GET_CLASS_TITLE =>
      classesStep env st task
  | .POST_UPLOAD_NOTE | .PUT_BIGNOTE_EDIT | .GET_BIGNOTE_HISTORY
  | .GET_BIGNOTE_EXPORT | .CREATE_NOTE | .EDIT_NOTE =>
      notesStep env st task

/-! ### The task priority queue

The member declaration of `taskQueue_` is not among the sources (the
header declaring `class Dispatcher` in namespace `dispatcher` is
missing); `dispatcher.cc` uses it through `top`/`pop`/`push` and the
only comparator in the sources, `TaskComparator` (`dispatcher.h:51-55`),
orders by the priority value alone: `a.priority > b.priority`.  We model
the queue as `std::priority_queue` over a vector with that comparator,
using the GNU libstdc++ `push_heap` / `pop_heap` algorithms the build
links against. -/

/-- The strict-weak-order the comparator induces: `taskLess a b` iff
`a.priority > b.priority` (lower priority values sort toward the
top). -/
def taskLess (a b : F_Task) : Bool :=
  decide (b.getPriority < a.getPriority)

/-- Element of the backing vector at index `i` (accesses are in bounds
in every real run; the default is irrelevant). -/
def getE (v : List F_Task) (i : Nat) : F_Task :=
  v.getD i (mkTask .ERROR)

/-- Mirror of libstdc++ `std::__push_heap`: walk the hole up while the
parent compares less than the inserted value, then drop the value in.
The `fuel` parameter only bounds the recursion; the hole index strictly
decreases on every iteration, so any `fuel > hole` makes the function
agree with the C++ loop. -/
def pushHeapLoop : Nat → List F_Task → Nat → Nat → F_Task → List F_Task
  | 0, v, hole, _, value => v.set hole value
  | fuel + 1, v, hole, top, value =>
      if top < hole ∧ taskLess (getE v ((hole - 1) / 2)) value = true then
        pushHeapLoop fuel (v.set hole (getE v ((hole - 1) / 2)))
          ((hole - 1) / 2) top value
      else v.set hole value

/-- First loop of libstdc++ `std::__adjust_heap`: walk the hole down,
always toward the second child unless the first compares not-less,
until the hole has no two children; returns the vector and the final
hole index.  The hole strictly increases and stays below `len`, so any
`fuel ≥ len` makes the function agree with the C++ loop. -/
def adjustHeapLoop : Nat → List F_Task → Nat → Nat → List F_Task × Nat
  | 0, v, hole, _ => (v, hole)
  | fuel + 1, v, hole, len =>
      if hole < (len - 1) / 2 then
        if taskLess (getE v (2 * (hole + 1))) (getE v (2 * (hole + 1) - 1)) then
          adjustHeapLoop fuel (v.set hole (getE v (2 * hole + 1))) (2 * hole + 1) len
        else
          adjustHeapLoop fuel (v.set hole (getE v (2 * hole + 2))) (2 * hole + 2) len
      else (v, hole)

/-- Tail step of `std::__adjust_heap` for the even-length case where the
hole ended at a node with exactly one (left) child; the `2 ≤ len` guard
renders the C++ signed comparison `secondChild == (len - 2) / 2`, which
is false for `len < 2` because `(len - 2) / 2` is negative there. -/
def adjustHeapFix (v : List F_Task) (hole len : Nat) :
    List F_Task × Nat :=
  if len % 2 = 0 ∧ 2 ≤ len ∧ hole = (len - 2) / 2 then
    (v.set hole (getE v (2 * (hole + 1) - 1)), 2 * (hole + 1) - 1)
  else (v, hole)

/-- Mirror of `std::__adjust_heap`: push the hole to the bottom, then
sift the displaced value back up toward the original hole index. -/
def adjustHeap (v : List F_Task) (holeStart len : Nat) (value : F_Task) :
    List F_Task :=
  let r1 := adjustHeapLoop len v holeStart len
  let r2 := adjustHeapFix r1.1 r1.2 len
  pushHeapLoop (r2.2 + 1) r2.1 r2.2 holeStart value

/-- Mirror of `priority_queue::push`: append, then `std::push_heap`. -/
def heapPush (v : List F_Task) (t : F_Task) : List F_Task :=
  pushHeapLoop (v.length + 1) (v ++ [t]) v.length 0 t

/-- Mirror of `priority_queue::top` followed by `pop`
(`std::pop_heap` + `pop_back`): returns the popped task and the
remaining vector (`none` on an empty queue, on which the C++ is never
called). -/
def heapPop (v : List F_Task) : Option (F_Task × List F_Task) :=
  match v with
  | [] => none
  | _ :: _ =>
      let top := getE v 0
      let value := getE v (v.length - 1)
      let v1 := v.set (v.length - 1) top
      let v2 := adjustHeap v1 0 (v.length - 1) value
      some (top, v2.dropLast)

/-- Boolean binary-heap invariant of the backing vector: every non-root
element compares no more urgent than its parent. -/
def isHeapB (v : List F_Task) : Bool :=
  (List.range v.length).all (fun i =>
    i = 0 || decide ((getE v ((i - 1) / 2)).getPriority ≤ (getE v i).getPriority))

/-! ### Dispatcher loop: admission control and shutdown
(`dispatcher.cc:796-913`) -/

/-- The `ERROR` reply synthesized on the admission-drop path
(`dispatcher.cc:889-891`). -/
def busyReply : F_Task :=
  ⟨0, 0, false,
   Json.obj [("error", .str "Server busy! Request dropped, please try again later.")],
   .ERROR⟩

/-- Outcome of one admission decision: the queue afterwards, the reply
sent directly on `C→E` (if the task was dropped), and whether
`notify_one` signalled a waiter. -/
structure DispatchOut where
  queue : List F_Task
  dropped : Option F_Task
  signalled : Bool

/-- Mirror of the enqueue block of `Dispatcher::start`
(`dispatcher.cc:880-900`): with the queue at or above
`threadPool_.size()` the task is dropped and a busy `ERROR` reply is
sent; otherwise it is pushed and one waiter signalled. -/
def dispatchAdmit (numThreads : Nat) (queue : List F_Task) (t : F_Task) :
    DispatchOut :=
  if numThreads ≤ queue.length then ⟨queue, some busyReply, false⟩
  else ⟨heapPush queue t, none, true⟩

/-- Queue-affecting events: the dispatcher admitting a task read from
`E→C`, and a worker popping under the lock. -/
inductive QueueEvent where
  | arrive : F_Task → QueueEvent
  | workerPop : QueueEvent

/-- One queue transition. -/
def queueStep (numThreads : Nat) (q : List F_Task) : QueueEvent → List F_Task
  | .arrive t => (dispatchAdmit numThreads q t).queue
  | .workerPop =>
      match heapPop q with
      | none => q
      | some (_, q') => q'

/-- Queue contents after a sequence of events starting from the empty
queue. -/
def runQueue (numThreads : Nat) (evs : List QueueEvent) : List F_Task :=
  evs.foldl (queueStep numThreads) []

/-! ### Core shutdown machine (`Dispatcher::start` and
`Dispatcher::processInboundTasks`) -/

/-- Control point of one worker thread inside
`processInboundTasks`. -/
inductive WPhase where
  | atLoopCheck
  | waiting
  | processing : F_Task → WPhase
  | exited

/-- Whether a worker has left its loop. -/
def WPhase.isExited : WPhase → Bool
  | .exited => true
  | _ => false

/-- Joint state of the dispatcher loop, the workers, the queue and the
two channels. -/
structure CoreState where
  running : Bool
  heap : List F_Task
  inbox : List F_Task
  sent : List F_Task
  workers : List WPhase
  dispatcherDone : Bool
  st : CoreSt

/-- Update worker `i`'s phase. -/
def setWorker (ws : List WPhase) (i : Nat) (p : WPhase) : List WPhase :=
  ws.set i p

/-- Scheduler events: the dispatcher loop consuming one inbound frame; a
waiting worker passing the condition-variable predicate; a worker
finishing its handler call; a worker re-evaluating `while (running_)`. -/
inductive CoreEvent where
  | dispatch : CoreEvent
  | wake : Nat → CoreEvent
  | finish : Nat → CoreEvent
  | loopCheck : Nat → CoreEvent

/-- One interleaving step of the Core, following `dispatcher.cc`
line by line: SYSKILL clears `running_`, wakes everyone and stops the
read loop; other tasks go through admission; a woken worker exits only
if shutdown is set with an empty queue, else pops and stamps the task;
a finishing worker sends `processTask`'s reply and returns to the
`while (running_)` check, which exits whenever the flag is down —
even if tasks remain queued. -/
def coreStep (env : CoreEnv) (s : CoreState) : CoreEvent → CoreState
  | .dispatch =>
      if s.dispatcherDone then s
      else
        match s.inbox with
        | [] => s
        | t :: rest =>
            if t.type = .SYSKILL then
              { s with running := false, dispatcherDone := true, inbox := rest }
            else
              let out := dispatchAdmit s.workers.length s.heap t
              { s with heap := out.queue,
                       sent := s.sent ++ (out.dropped.map (fun r => [r])).getD [],
                       inbox := rest }
  | .wake i =>
      match s.workers.getD i .exited with
      | .waiting =>
          if ¬ s.running ∧ s.heap.isEmpty then
            { s with workers := setWorker s.workers i .exited }
          else
            match heapPop s.heap with
            | none => s
            | some (t, q') =>
                { s with heap := q',
                         workers := setWorker s.workers i
                           (.processing { t with threadId := i }) }
      | _ => s
  | .finish i =>
      match s.workers.getD i .exited with
      | .processing t =>
          let r := processTask env s.st t
          { s with sent := s.sent ++ [r.1], st := r.2,
                   workers := setWorker s.workers i .atLoopCheck }
      | _ => s
  | .loopCheck i =>
      match s.workers.getD i .exited with
      | .atLoopCheck =>
          if s.running then { s with workers := setWorker s.workers i .waiting }
          else { s with workers := setWorker s.workers i .exited }
      | _ => s

/-- Run a schedule of Core events. -/
def runCore (env : CoreEnv) (s : CoreState) (evs : List CoreEvent) : CoreState :=
  evs.foldl (coreStep env) s

/-! ### Reply-shape predicate and concrete instances -/

/-- Numeric `statusCode` field of a payload, when present. -/
def statusOf (j : Json) : Option Int :=
  match j.get "statusCode" with
  | some (.num n) => some n
  | _ => none

/-- Whether a payload carries a numeric error status (`≥ 400`). -/
def errStatus (j : Json) : Bool :=
  match statusOf j with
  | some n => decide (400 ≤ n)
  | none => false

/-- Shape every handler reply is claimed to have: it keeps the request's
kind, its payload carries a `statusCode` field, and any error status
comes with an `error` message. -/
def replyShapeOK (req reply : F_Task) : Prop :=
  reply.type = req.type ∧ reply.data.hasKey "statusCode" = true ∧
    (errStatus reply.data = true → reply.data.hasKey "error" = true)

/-- Concrete stand-in for the SHA-256 hex digest (OpenSSL is outside the
sources); any function with nonempty outputs works for the witnesses. -/
def hash0 : String → String := fun s => "#" ++ s

/-- Concrete external effects for witnesses: deterministic token strings
and a failing JWT decoder. -/
def ext0 : AuthExt := ⟨fun uid => "tok" ++ toString uid, 0, fun _ => none⟩

/-- Concrete environment for witnesses and counterexamples. -/
def env0 : CoreEnv := ⟨hash0, ext0, fun _ => [], "now"⟩

/-- Empty database and file store. -/
def st0 : CoreSt := ⟨⟨[], []⟩, ⟨[]⟩⟩

/-- Database holding the registered user alice. -/
def dbAlice : DB := ⟨[⟨1, "alice", hash0 "secret123"⟩], []⟩

/-- Database with one user (constant-hash password) and one stored
token, for the change-password witness. -/
def dbAliceTok : DB := ⟨[⟨1, "alice", "#"⟩], [⟨"t0", 1, 99⟩]⟩

/-- A well-formed `SIGN_IN` task for alice. -/
def signInAlice : F_Task :=
  mkTaskData .SIGN_IN
    (Json.obj [("username", .str "alice"), ("password", .str "secret123")])

/-- A `REGISTER` task with an empty payload (a failing input). -/
def regBad : F_Task := mkTaskData .REGISTER (Json.obj [])

/-- Four tasks for the priority-queue trace, stamped 1-4 in `threadId`
in their insertion order: one `SIGN_IN` (priority 3) and three
`PUT_BIGNOTE_EDIT` (priority 8). -/
def tA : F_Task := ⟨1, 0, false, Json.null, .SIGN_IN⟩

/-- Second insertion, priority 8. -/
def tB : F_Task := ⟨2, 0, false, Json.null, .PUT_BIGNOTE_EDIT⟩

/-- Third insertion, priority 8. -/
def tC : F_Task := ⟨3, 0, false, Json.null, .PUT_BIGNOTE_EDIT⟩

/-- Fourth insertion, priority 8. -/
def tD : F_Task := ⟨4, 0, false, Json.null, .PUT_BIGNOTE_EDIT⟩

/-- Shutdown scenario start state: one worker (`N = 1`) parked in the
condition-variable wait, two `PING` requests and a `SYSKILL` pending on
`E→C`, empty queue (the post-handshake configuration). -/
def c8Init : CoreState :=
  ⟨true, [], [mkTask .PING, mkTask .PING, mkTask .SYSKILL], [], [.waiting],
   false, st0⟩

/-- Shutdown scenario schedule: the dispatcher admits the first `PING`,
the worker picks it up, the dispatcher admits the second `PING` and then
reads `SYSKILL`; the worker finishes its task and re-checks
`while (running_)`. -/
def c8Sched : List CoreEvent :=
  [.dispatch, .wake 0, .dispatch, .dispatch, .finish 0, .loopCheck 0]

/-! ## Helper lemmas -/

theorem Json.hasKey_obj_cons (k' k : String) (v : Json) (fs : List (String × Json)) :
    (Json.obj ((k', v) :: fs)).hasKey k = ((k' == k) || (Json.obj fs).hasKey k) := by
  simp [Json.hasKey]

theorem Json.get_obj_cons (k' k : String) (v : Json) (fs : List (String × Json)) :
    (Json.obj ((k', v) :: fs)).get k =
      if k' == k then some v else (Json.obj fs).get k := by
  by_cases hk : k' == k <;> simp [Json.get, List.find?_cons, hk]

theorem hasKey_setPairs_self (fs : List (String × Json)) (k : String) (v : Json) :
    (Json.obj (setPairs fs k v)).hasKey k = true := by
  induction fs with
  | nil => simp [setPairs, Json.hasKey]
  | cons p rest ih =>
      obtain ⟨k', w⟩ := p
      by_cases hk : k' == k <;>
        simp [setPairs, hk, Json.hasKey_obj_cons, ih]

theorem hasKey_setPairs_preserve (fs : List (String × Json)) (k k1 : String)
    (v : Json) (h : (Json.obj fs).hasKey k1 = true) :
    (Json.obj (setPairs fs k v)).hasKey k1 = true := by
  induction fs with
  | nil => simp [Json.hasKey] at h
  | cons p rest ih =>
      obtain ⟨k', w⟩ := p
      rw [Json.hasKey_obj_cons] at h
      by_cases hk : k' == k
      · rcases Bool.or_eq_true_iff.mp h with h1 | h1 <;>
          simp [setPairs, hk, Json.hasKey_obj_cons, h1]
      · rcases Bool.or_eq_true_iff.mp h with h1 | h1 <;>
          simp [setPairs, hk, Json.hasKey_obj_cons, h1, ih]

theorem setKeyE_ok_hasKey (j : Json) (k : String) (v j' : Json)
    (h : j.setKeyE k v = .ok j') : j'.hasKey k = true := by
  cases j <;> simp [Json.setKeyE] at h <;> subst h
  · simp [Json.hasKey]
  · exact hasKey_setPairs_self _ _ _

theorem setKeyE_ok_preserve (j : Json) (k k1 : String) (v j' : Json)
    (h : j.setKeyE k v = .ok j') (h1 : j.hasKey k1 = true) :
    j'.hasKey k1 = true := by
  cases j <;> simp [Json.hasKey] at h1
  simp [Json.setKeyE] at h
  subst h
  exact hasKey_setPairs_preserve _ _ _ _ (by simp [Json.hasKey, h1])

theorem handleSystemTask_shape (task r : F_Task)
    (h : handleSystemTask task = .ok r) : replyShapeOK task r := by
  unfold handleSystemTask at h
  split at h
  · injection h with h1
    subst h1
    refine ⟨rfl, ?_, ?_⟩ <;>
      simp [F_Task.withData, Json.hasKey_obj_cons, errStatus, statusOf,
        Json.get_obj_cons]
  · injection h with h1
    subst h1
    refine ⟨rfl, ?_, ?_⟩ <;>
      simp [F_Task.withData, Json.hasKey_obj_cons, errStatus, statusOf,
        Json.get_obj_cons]
  · rcases h1 : (if ¬ task.data.hasKey "error" = true then
        task.data.setKeyE "error" (Json.str "Unknown error occurred.")
      else Except.ok task.data) with e1 | d1
    · rw [h1] at h
      dsimp only at h
      exact Except.noConfusion h
    · rw [h1] at h
      dsimp only at h
      rcases h2 : (if ¬ d1.hasKey "statusCode" = true then
          d1.setKeyE "statusCode" (Json.num 400)
        else Except.ok d1) with e2 | d2
      · rw [h2] at h
        dsimp only at h
        exact Except.noConfusion h
      · rw [h2] at h
        dsimp only at h
        injection h with h3
        subst h3
        have herr : d1.hasKey "error" = true := by
          by_cases hk : task.data.hasKey "error" = true
          · simp [hk] at h1
            subst h1
            exact hk
          · simp [hk] at h1
            exact setKeyE_ok_hasKey _ _ _ _ h1
        have hsc : d2.hasKey "statusCode" = true := by
          by_cases hk : d1.hasKey "statusCode" = true
          · simp [hk] at h2
            subst h2
            exact hk
          · simp [hk] at h2
            exact setKeyE_ok_hasKey _ _ _ _ h2
        have herr2 : d2.hasKey "error" = true := by
          by_cases hk : d1.hasKey "statusCode" = true
          · simp [hk] at h2
            subst h2
            exact herr
          · simp [hk] at h2
            exact setKeyE_ok_preserve _ _ _ _ _ h2 herr
        exact ⟨rfl, hsc, fun _ => herr2⟩

theorem handleAuthTask_shape (hashF : String → String) (ext : AuthExt) (db : DB)
    (task r : F_Task) (db' : DB)
    (h : handleAuthTask hashF ext db task = .ok (r, db')) : replyShapeOK task r := by
  simp only [handleAuthTask] at h
  repeat' split at h
  all_goals try exact Except.noConfusion h
  all_goals injection h with hpair
  all_goals injection hpair with h1 h2
  all_goals subst h1
  all_goals
    refine ⟨rfl, ?_, ?_⟩ <;>
      simp [F_Task.withData, errObj, Json.hasKey_obj_cons, errStatus, statusOf,
        Json.get_obj_cons]

theorem handleClassesBody_shape (classIdsOf : Int → List Int) (fs : Fs)
    (task r : F_Task) (fs' : Fs)
    (h : handleClassesBody classIdsOf fs task = .ok (r, fs')) :
    replyShapeOK task r := by
  simp only [handleClassesBody] at h
  repeat' split at h
  all_goals try exact Except.noConfusion h
  all_goals injection h with hpair
  all_goals injection hpair with h1 h2
  all_goals subst h1
  all_goals
    refine ⟨rfl, ?_, ?_⟩ <;>
      simp [F_Task.withData, errObj, Json.hasKey_obj_cons, errStatus, statusOf,
        Json.get_obj_cons]

theorem handleNotesBody_shape (nowStr : String) (fs : Fs)
    (task r : F_Task) (fs' : Fs)
    (h : handleNotesBody nowStr fs task = .ok (r, fs')) :
    replyShapeOK task r := by
  simp only [handleNotesBody] at h
  repeat' split at h
  all_goals try exact Except.noConfusion h
  all_goals injection h with hpair
  all_goals injection hpair with h1 h2
  all_goals subst h1
  all_goals
    refine ⟨rfl, ?_, ?_⟩ <;>
      simp [F_Task.withData, errObj, Json.hasKey_obj_cons, errStatus, statusOf,
        Json.get_obj_cons]

theorem errObj_shape (task : F_Task) (code : Int) (msg : String) :
    replyShapeOK task (task.withData (errObj code msg)) := by
  refine ⟨rfl, ?_, ?_⟩ <;>
    simp [F_Task.withData, errObj, Json.hasKey_obj_cons, errStatus, statusOf,
      Json.get_obj_cons]

theorem handleClassesTask_shape (classIdsOf : Int → List Int) (fs : Fs)
    (task : F_Task) :
    replyShapeOK task (handleClassesTask classIdsOf fs task).1 := by
  unfold handleClassesTask
  split
  · next r h => exact handleClassesBody_shape _ _ _ _ _ h
  · exact errObj_shape _ _ _

theorem handleNotesTask_shape (nowStr : String) (fs : Fs) (task : F_Task) :
    replyShapeOK task (handleNotesTask nowStr fs task).1 := by
  unfold handleNotesTask
  split
  · next r h => exact handleNotesBody_shape _ _ _ _ _ h
  · exact errObj_shape _ _ _

theorem systemStep_shape (st : CoreSt) (task : F_Task) :
    replyShapeOK task (systemStep st task).1 := by
  unfold systemStep
  split
  · next r h => exact handleSystemTask_shape _ _ h
  · exact errObj_shape _ _ _

theorem authStep_shape (env : CoreEnv) (st : CoreSt) (task : F_Task) :
    replyShapeOK task (authStep env st task).1 := by
  unfold authStep
  split
  · next r db2 h => exact handleAuthTask_shape _ _ _ _ _ _ h
  · exact errObj_shape _ _ _

/-- Every reply of `processTask` keeps the request's kind, carries a
`statusCode`, and pairs error statuses with an `error` message. -/
theorem processTask_shape (env : CoreEnv) (st : CoreSt) (task : F_Task) :
    replyShapeOK task (processTask env st task).1 := by
  unfold processTask
  split
  all_goals try exact systemStep_shape _ _
  all_goals try exact authStep_shape _ _ _
  all_goals try exact handleClassesTask_shape _ _ _
  all_goals exact handleNotesTask_shape _ _ _

/-- Replies never change the kind field. -/
theorem processTask_type_eq (env : CoreEnv) (st : CoreSt) (task : F_Task) :
    (processTask env st task).1.type = task.type :=
  (processTask_shape env st task).1

theorem pushHeapLoop_length (fuel : Nat) :
    ∀ (v : List F_Task) (hole top : Nat) (value : F_Task),
      (pushHeapLoop fuel v hole top value).length = v.length := by
  induction fuel with
  | zero => intro v hole top value; simp [pushHeapLoop]
  | succ fuel ih =>
      intro v hole top value
      unfold pushHeapLoop
      split
      · rw [ih, List.length_set]
      · rw [List.length_set]

theorem adjustHeapLoop_length (fuel : Nat) :
    ∀ (v : List F_Task) (hole len : Nat),
      (adjustHeapLoop fuel v hole len).1.length = v.length := by
  induction fuel with
  | zero => intro v hole len; simp [adjustHeapLoop]
  | succ fuel ih =>
      intro v hole len
      unfold adjustHeapLoop
      split
      · split <;> rw [ih, List.length_set]
      · rfl

theorem adjustHeapFix_length (v : List F_Task) (hole len : Nat) :
    (adjustHeapFix v hole len).1.length = v.length := by
  unfold adjustHeapFix
  split <;> simp [List.length_set]

theorem adjustHeap_length (v : List F_Task) (holeStart len : Nat)
    (value : F_Task) : (adjustHeap v holeStart len value).length = v.length := by
  unfold adjustHeap
  rw [pushHeapLoop_length, adjustHeapFix_length, adjustHeapLoop_length]

theorem heapPush_length (v : List F_Task) (t : F_Task) :
    (heapPush v t).length = v.length + 1 := by
  unfold heapPush
  rw [pushHeapLoop_length, List.length_append, List.length_cons, List.length_nil]

theorem heapPop_length (v : List F_Task) (t : F_Task) (rest : List F_Task)
    (h : heapPop v = some (t, rest)) : rest.length = v.length - 1 := by
  unfold heapPop at h
  match v, h with
  | a :: l, h =>
      injection h with h1
      injection h1 with h2 h3
      subst h3
      rw [List.length_dropLast, adjustHeap_length, List.length_set]

theorem queueStep_length_le (numThreads : Nat) (q : List F_Task)
    (e : QueueEvent) (hq : q.length ≤ numThreads) :
    (queueStep numThreads q e).length ≤ numThreads := by
  cases e with
  | arrive t =>
      have hdef : queueStep numThreads q (.arrive t) =
          (dispatchAdmit numThreads q t).queue := rfl
      rw [hdef]
      unfold dispatchAdmit
      split
      · exact hq
      · next hge =>
          dsimp only
          rw [heapPush_length]
          omega
  | workerPop =>
      have hdef : queueStep numThreads q .workerPop =
          (match heapPop q with | none => q | some (_, q') => q') := rfl
      rw [hdef]
      cases hp : heapPop q with
      | none => exact hq
      | some r =>
          obtain ⟨t, q'⟩ := r
          dsimp only
          have := heapPop_length q t q' hp
          omega

theorem runQueue_aux_length_le (numThreads : Nat) (evs : List QueueEvent) :
    ∀ q, q.length ≤ numThreads →
      (evs.foldl (queueStep numThreads) q).length ≤ numThreads := by
  induction evs with
  | nil => intro q hq; simpa using hq
  | cons e es ih =>
      intro q hq
      exact ih _ (queueStep_length_le numThreads q e hq)

theorem isHeapB_parent_le (v : List F_Task) (h : isHeapB v = true) (i : Nat)
    (hi : i < v.length) (hpos : 0 < i) :
    (getE v ((i - 1) / 2)).getPriority ≤ (getE v i).getPriority := by
  unfold isHeapB at h
  rw [List.all_eq_true] at h
  have := h i (List.mem_range.mpr hi)
  rcases Bool.or_eq_true_iff.mp this with h0 | hle
  · exact absurd (by simpa using h0) (Nat.pos_iff_ne_zero.mp hpos)
  · simpa using hle

theorem isHeapB_root_min (v : List F_Task) (h : isHeapB v = true) :
    ∀ i, i < v.length → (getE v 0).getPriority ≤ (getE v i).getPriority := by
  intro i
  induction i using Nat.strong_induction_on with
  | _ i ih =>
      intro hi
      rcases Nat.eq_zero_or_pos i with h0 | hpos
      · subst h0; exact le_refl _
      · have hp : (i - 1) / 2 < i :=
          Nat.lt_of_le_of_lt (Nat.div_le_self _ 2) (Nat.pred_lt (Nat.pos_iff_ne_zero.mp hpos))
        exact le_trans (ih _ hp (lt_trans hp hi)) (isHeapB_parent_le v h i hi hpos)

/-! ## Claim theorems -/

/-- Claim C1, counterexample: the Edge's wait loop returns the first
reply available on `C→E` with no correlation check (the task record has
no correlation id), so a handler that sent a `REGISTER`-kind task can
receive the Core's reply to a concurrent `PING` request. -/
theorem C1_counterexample :
    processTaskAndWaitForResponse true true
        [(processTask env0 st0 (mkTask .PING)).1] (loginRouteTask "alice" "pw") =
      (processTask env0 st0 (mkTask .PING)).1 ∧
    (processTask env0 st0 (mkTask .PING)).1.type = .PING ∧
    (loginRouteTask "alice" "pw").type = .REGISTER ∧
    F_TaskType.PING ≠ F_TaskType.REGISTER :=
  ⟨rfl, rfl, rfl, by decide⟩

/-- Claim C1, amended: with at most one request outstanding (the
gateway is documented as not thread-safe), the handler receives the
first reply the Core sends, and the Core's reply always keeps the kind
of the request that produced it; there is no correlation id on either
side. -/
theorem C1_amended :
    (∀ (r : F_Task) (rest : List F_Task) (t : F_Task),
        processTaskAndWaitForResponse true true (r :: rest) t = r) ∧
    (∀ env st t, (processTask env st t).1.type = t.type) :=
  ⟨fun _ _ _ => rfl, processTask_type_eq⟩

/-- Claim C2: admission control of the Dispatcher Loop.  Starting from
the empty queue, any interleaving of admissions and worker pops keeps
the queue at no more than `numThreads` tasks; a task arriving below
capacity is pushed and one waiter signalled, a task arriving at
capacity is dropped with the busy `ERROR` reply sent on `C→E` and the
queue unchanged. -/
theorem C2_admission_bound :
    (∀ numThreads evs, (runQueue numThreads evs).length ≤ numThreads) ∧
    (∀ numThreads (q : List F_Task) t, q.length < numThreads →
        dispatchAdmit numThreads q t = ⟨heapPush q t, none, true⟩) ∧
    (∀ numThreads (q : List F_Task) t, numThreads ≤ q.length →
        dispatchAdmit numThreads q t = ⟨q, some busyReply, false⟩) ∧
    busyReply.type = .ERROR ∧
    busyReply.data = Json.obj
      [("error", .str "Server busy! Request dropped, please try again later.")] := by
  refine ⟨?_, ?_, ?_, rfl, rfl⟩
  · intro numThreads evs
    exact runQueue_aux_length_le numThreads evs [] (by simp)
  · intro numThreads q t h
    unfold dispatchAdmit
    rw [if_neg (Nat.not_le.mpr h)]
  · intro numThreads q t h
    unfold dispatchAdmit
    rw [if_pos h]

/-- Claim C2, witness at concrete inputs: a pool of one thread admits
into an empty queue and drops once the queue holds one task. -/
theorem C2_admission_bound_witness :
    (runQueue 1 [QueueEvent.arrive (mkTask .PING)]).length ≤ 1 ∧
    dispatchAdmit 1 [] (mkTask .PING) = ⟨heapPush [] (mkTask .PING), none, true⟩ ∧
    dispatchAdmit 1 [mkTask .PING] (mkTask .SIGN_IN) =
      ⟨[mkTask .PING], some busyReply, false⟩ :=
  ⟨C2_admission_bound.1 1 _,
   C2_admission_bound.2.1 1 [] _ (by decide),
   C2_admission_bound.2.2.1 1 [mkTask .PING] _ (by decide)⟩

/-- Claim C3, counterexample: pushing `tA` (priority 3) then `tB`,
`tC`, `tD` (equal priority 8, inserted in that order) and popping twice
returns `tA` first (minimal priority) but then `tC` — the task inserted
third — while `tB`, inserted second, is still queued: the binary heap
behind `std::priority_queue` gives no FIFO tie-break. -/
theorem C3_counterexample :
    heapPop (heapPush (heapPush (heapPush (heapPush [] tA) tB) tC) tD) =
      some (tA, [tC, tB, tD]) ∧
    heapPop [tC, tB, tD] = some (tC, [tB, tD]) ∧
    tB.getPriority = tC.getPriority ∧ tB.threadId = 2 ∧ tC.threadId = 3 :=
  ⟨rfl, rfl, rfl, rfl, rfl⟩

/-- Claim C3, amended: a dequeue from any vector satisfying the binary
heap invariant returns a task whose priority value is minimal among all
queued tasks; the tie-break among equal priorities is unspecified (not
FIFO). -/
theorem C3_amended :
    ∀ (v : List F_Task) (t : F_Task) (rest : List F_Task),
      isHeapB v = true → heapPop v = some (t, rest) →
      ∀ x ∈ v, t.getPriority ≤ x.getPriority := by
  intro v t rest hB hp x hx
  have ht : t = getE v 0 := by
    cases v with
    | nil => simp [heapPop] at hp
    | cons a l =>
        unfold heapPop at hp
        dsimp only at hp
        injection hp with h1
        injection h1 with h2 h3
        exact h2.symm
  obtain ⟨i, hi, hgi⟩ := List.mem_iff_getElem.mp hx
  have hroot := isHeapB_root_min v hB i hi
  have hgx : getE v i = x := by
    unfold getE
    rw [List.getD_eq_getElem _ _ hi]
    exact hgi
  rw [ht]
  rwa [hgx] at hroot

/-- Claim C3, amended witness: on the two-element heap `[PING,
SIGN_IN]` the pop returns the `PING` task, whose priority is minimal. -/
theorem C3_amended_witness :
    (mkTask .PING).getPriority ≤ (mkTask .SIGN_IN).getPriority :=
  C3_amended [mkTask .PING, mkTask .SIGN_IN] (mkTask .PING) [mkTask .SIGN_IN]
    (by decide) (by rfl) (mkTask .SIGN_IN) (by simp)

/-- Claim C4, counterexample: the specification's length-prefixed frame
grows with the JSON payload (30 bytes for `{}` against 42 bytes for a
14-byte payload), while `FifoChannel::send` always writes the same
`sizeof(F_Task)` byte count whatever the task holds, so the bytes on
the channel are not the specified frame. -/
theorem C4_counterexample :
    (specWireFrame 0 1 0 [123, 125]).length = 30 ∧
    (specWireFrame 0 2 0
        [123, 34, 117, 115, 101, 114, 34, 58, 34, 97, 108, 105, 34, 125]).length
      = 42 ∧
    (fun szF => sendByteCount szF (mkTaskData .REGISTER (Json.obj []))) =
      (fun szF => sendByteCount szF (mkTask .PING)) ∧
    (30 : Nat) ≠ 42 :=
  ⟨by decide, by decide, rfl, by decide⟩

/-- Claim C4, amended: the frame is a fixed-size raw copy of the
`F_Task` struct, so its size is independent of the record; the reader
turns a zero-byte read and I/O errors into exceptions and otherwise
reports whether a complete struct was read. -/
theorem C4_amended :
    (∀ szF (t u : F_Task), sendByteCount szF t = sendByteCount szF u) ∧
    (∀ szF, readResult 0 szF = .error "No writers attached to pipe.") ∧
    (∀ szF, readResult (-1) szF = .error "FIFO Read Error.") ∧
    (∀ (n : Int) (szF : Nat), 0 < n →
        readResult n szF = .ok (decide (n = szF))) ∧
    (∀ szF, sendResult (-1) szF = .error "FIFO Write Error.") := by
  refine ⟨fun _ _ _ => rfl, fun szF => rfl, ?_, ?_, ?_⟩
  · intro szF
    unfold readResult
    rw [if_neg (by omega), if_pos rfl]
  · intro n szF hn
    unfold readResult
    rw [if_neg (by omega), if_neg (by omega)]
  · intro szF
    unfold sendResult
    rw [if_pos rfl]

/-- Claim C4, amended witness: a 5-byte read against a 5-byte struct is
reported complete. -/
theorem C4_amended_witness : readResult 5 5 = .ok true := by
  have h := C4_amended.2.2.2.1 5 5 (by decide)
  simpa using h

/-- Claim C5, counterexample: when no reply arrives before the deadline
the login route answers HTTP 400 with the payload
`{status:"error", message:"Response timeout"}` — not 504, and with no
`error` field at all. -/
theorem C5_counterexample :
    loginRouteResponse true true [] "alice" "secret123" =
      (400, Json.obj [("status", .str "error"),
                      ("message", .str "Response timeout")]) ∧
    (loginRouteResponse true true [] "alice" "secret123").2.get "error" = none ∧
    (400 : Nat) ≠ 504 :=
  ⟨rfl, rfl, by decide⟩

/-- Claim C5, amended: the default deadline is 5000 ms; on expiry the
wait loop synthesizes an `ERROR`-kind task with message
"Response timeout", which the login route surfaces as HTTP 400 carrying
that payload verbatim. -/
theorem C5_amended :
    defaultTimeoutMs = 5000 ∧
    (∀ (t : F_Task) (readOk : Bool),
        processTaskAndWaitForResponse true readOk [] t = timeoutTask) ∧
    (∀ (u p : String) (readOk : Bool),
        loginRouteResponse true readOk [] u p = (400, timeoutTask.data)) ∧
    timeoutTask.type = .ERROR :=
  ⟨rfl, fun _ _ => rfl, fun _ _ _ => rfl, rfl⟩

/-- Claim C6: the `POST /api/auth/login` route builds its task with
kind `REGISTER`, not `SIGN_IN` (`http_gateway.cc:161`), although the
enum's own comment maps `SIGN_IN` to that route; had the task carried
`SIGN_IN`, the auth handler would have answered with a `token` and a
`sessionId`, as shown on the concrete database holding alice. -/
theorem C6_login_sends_register :
    (loginRouteTask "alice" "secret123").type = .REGISTER ∧
    F_TaskType.REGISTER ≠ F_TaskType.SIGN_IN ∧
    handleAuthTask hash0 ext0 dbAlice signInAlice =
      .ok (signInAlice.withData (Json.obj
            [("statusCode", .num 200), ("token", .str "tok1"),
             ("sessionId", .str "sess-alice")]),
           ⟨[⟨1, "alice", "#secret123"⟩], [⟨"tok1", 1, 0⟩]⟩) :=
  ⟨rfl, by decide, rfl⟩

/-- Claim C7, counterexample: a `REGISTER` task with an empty payload
fails (statusCode 400 with an error message) but the reply keeps kind
`REGISTER` — the failure does not become an `ERROR`-kind reply. -/
theorem C7_counterexample :
    (processTask env0 st0 regBad).1.type = .REGISTER ∧
    F_TaskType.REGISTER ≠ F_TaskType.ERROR ∧
    (processTask env0 st0 regBad).1.data =
      errObj 400 "Missing username or password" :=
  ⟨rfl, by decide, rfl⟩

/-- Claim C7, amended: `processTask` is total — every input yields a
reply instead of an escaping exception — the reply keeps the request's
kind, its payload always carries a `statusCode` field, and whenever
that status is an error (`≥ 400`) the payload also carries an `error`
message. -/
theorem C7_amended :
    ∀ (env : CoreEnv) (st : CoreSt) (task : F_Task),
      (processTask env st task).1.type = task.type ∧
      (processTask env st task).1.data.hasKey "statusCode" = true ∧
      (errStatus (processTask env st task).1.data = true →
        (processTask env st task).1.data.hasKey "error" = true) :=
  fun env st task => processTask_shape env st task

/-- Claim C7, amended witness: on the failing `REGISTER` input the
error-status hypothesis holds and the payload indeed carries the error
message. -/
theorem C7_amended_witness :
    (processTask env0 st0 regBad).1.data.hasKey "error" = true :=
  (C7_amended env0 st0 regBad).2.2 (by rfl)

/-- Claim C8: evaluating the Core at the failing schedule.  With one
worker, the dispatcher admits a `PING`, the worker starts processing
it, a second `PING` is admitted, and `SYSKILL` arrives: the flag is
cleared, everyone is woken and the read loop stops — but after
finishing its task the worker re-evaluates `while (running_)`, finds it
false, and exits with the second task still queued: one task, one
reply, a drained pool, and an unprocessed request left in the heap. -/
theorem C8_shutdown_drops_queued_task :
    (runCore env0 c8Init c8Sched).dispatcherDone = true ∧
    (runCore env0 c8Init c8Sched).running = false ∧
    (runCore env0 c8Init c8Sched).inbox = [] ∧
    (runCore env0 c8Init c8Sched).workers.all WPhase.isExited = true ∧
    (runCore env0 c8Init c8Sched).heap.length = 1 ∧
    ((runCore env0 c8Init c8Sched).heap.map (fun t => t.type)) = [.PING] ∧
    (runCore env0 c8Init c8Sched).sent.length = 1 :=
  ⟨rfl, rfl, rfl, rfl, rfl, rfl, rfl⟩

/-- Claim C9, counterexample: `POST_ME_CLASSES` appears in none of the
claim's priority classes, yet `getPriority` returns 6 for it, not the
10 reserved for unclassified kinds. -/
theorem C9_counterexample :
    (mkTask .POST_ME_CLASSES).getPriority = 6 ∧
    (mkTask .POST_ME_CLASSES).getPriority ≠ 10 := by
  constructor <;> decide

/-- Claim C9, amended: the full static priority table of
`F_Task::getPriority`, adding `POST_ME_CLASSES = 6`, `CREATE_NOTE = 7`
and `EDIT_NOTE = 8` to the claimed entries; only `ERROR` maps to 10. -/
theorem C9_amended :
    (mkTask .SYSKILL).getPriority = 1 ∧
    (mkTask .PING).getPriority = 2 ∧
    (mkTask .SIGN_IN).getPriority = 3 ∧
    (mkTask .REGISTER).getPriority = 4 ∧
    (mkTask .AUTH_REFRESH).getPriority = 4 ∧
    (mkTask .LOG_OUT).getPriority = 5 ∧
    (mkTask .AUTH_CHANGE_PASSWORD).getPriority = 5 ∧
    (mkTask .GET_CLASSES).getPriority = 6 ∧
    (mkTask .GET_ME_CLASSES).getPriority = 6 ∧
    (mkTask .POST_ME_CLASSES).getPriority = 6 ∧
    (mkTask .GET_CLASS_DETAILS).getPriority = 6 ∧
    (mkTask .GET_CLASS_OWNER).getPriority = 6 ∧
    (mkTask .GET_CLASS_NAME).getPriority = 6 ∧
    (mkTask .GET_CLASS_DESCRIPTION).getPriority = 6 ∧
    (mkTask .GET_CLASS_BIGNOTE).getPriority = 6 ∧
    (mkTask .GET_CLASS_TITLE).getPriority = 6 ∧
    (mkTask .PUT_CLASS).getPriority = 7 ∧
    (mkTask .DELETE_CLASS).getPriority = 7 ∧
    (mkTask .POST_UPLOAD_NOTE).getPriority = 7 ∧
    (mkTask .CREATE_NOTE).getPriority = 7 ∧
    (mkTask .PUT_BIGNOTE_EDIT).getPriority = 8 ∧
    (mkTask .EDIT_NOTE).getPriority = 8 ∧
    (mkTask .GET_BIGNOTE_HISTORY).getPriority = 8 ∧
    (mkTask .GET_BIGNOTE_EXPORT).getPriority = 8 ∧
    (mkTask .ERROR).getPriority = 10 ∧
    (∀ t : F_Task, t.getPriority = (mkTask t.type).getPriority) := by
  refine ⟨?_, ?_, ?_, ?_, ?_, ?_, ?_, ?_, ?_, ?_, ?_, ?_, ?_, ?_, ?_, ?_,
    ?_, ?_, ?_, ?_, ?_, ?_, ?_, ?_, ?_, ?_⟩
  all_goals try decide
  intro t
  rfl

/-- Claim C10: `auth::changePassword` over the database model.  When
the user exists and the old password verifies, the call succeeds, every
stored row for that username carries the hash of the new password, and
no token of that user survives; when the user is missing or the old
password fails verification, the call returns false and the database —
in particular the stored password — is unchanged. -/
theorem C10_changePassword :
    ∀ (hashF : String → String) (db : DB) (u old new : String),
      (∀ s, hashF s ≠ "") →
      ((∀ user, DAL.getUserByUsername db u = some user →
          verifyPasswordImpl hashF user.password_hash old = true →
          ∃ db', auth.changePassword hashF db u old new = .ok (true, db') ∧
            (∀ w ∈ db'.users, w.username = u → w.password_hash = hashF new) ∧
            (∀ tk ∈ db'.tokens, tk.user_id ≠ user.id)) ∧
       (DAL.getUserByUsername db u = none →
          auth.changePassword hashF db u old new = .ok (false, db)) ∧
       (∀ user, DAL.getUserByUsername db u = some user →
          verifyPasswordImpl hashF user.password_hash old = false →
          auth.changePassword hashF db u old new = .ok (false, db))) := by
  intro hashF db u old new hne
  refine ⟨?_, ?_, ?_⟩
  · intro user hu hv
    have hu0 : u ≠ "" := by
      intro h
      rw [h] at hu
      simp [DAL.getUserByUsername] at hu
    unfold auth.changePassword
    rw [hu]
    dsimp only
    rw [if_neg (by simp [hv])]
    unfold DAL.updateUserPassword
    rw [if_neg (by simp [hu0, hne new])]
    dsimp only
    refine ⟨_, rfl, ?_, ?_⟩
    · intro w hw hwname
      unfold DAL.deleteTokensForUser at hw
      dsimp only at hw
      obtain ⟨w0, hw0, hweq⟩ := List.mem_map.mp hw
      by_cases hm : w0.username == u
      · rw [← hweq]
        simp [hm]
      · rw [← hweq] at hwname
        simp [hm] at hwname
        exact absurd (by simpa using hwname) (by simpa using hm)
    · intro tk htk
      unfold DAL.deleteTokensForUser at htk
      dsimp only at htk
      have := List.mem_filter.mp htk
      simpa using this.2
  · intro hu
    unfold auth.changePassword
    rw [hu]
  · intro user hu hv
    unfold auth.changePassword
    rw [hu]
    dsimp only
    rw [if_pos (by simp [hv])]

/-- Claim C10, witness: on the one-user database with a stored token
and a constant hash function, changing alice's password succeeds. -/
theorem C10_changePassword_witness :
    ∃ db', auth.changePassword (fun _ => "#") dbAliceTok "alice" "old" "new" =
        .ok (true, db') ∧
      (∀ w ∈ db'.users, w.username = "alice" →
        w.password_hash = (fun _ : String => "#") "new") ∧
      (∀ tk ∈ db'.tokens, tk.user_id ≠ (1 : Int)) :=
  (C10_changePassword (fun _ => "#") dbAliceTok "alice" "old" "new"
      (fun _ => (by decide : ("#" : String) ≠ ""))).1 ⟨1, "alice", "#"⟩
    (by decide) (by decide)
